import Mathlib

/-!
# Verification of `convertidor.py`

Shallow embedding of the CSV/XLSX → JSON converter script `src/convertidor.py`.

The script is a linear pipeline inside one `try` block:
1. `os.path.splitext` extracts the extension of `archivo_entrada`;
2. dispatch on the extension: `.xlsx` → `pd.read_excel`, `.csv` →
   `pd.read_csv(..., encoding='latin-1')`, otherwise
   `raise ValueError("Formato de archivo no soportado. Use .xlsx o .csv")`;
3. if a column named `Fecha_Compra` exists, that column is rewritten through
   `pd.to_datetime(...).dt.strftime('%Y-%m-%d')`;
4. `df.to_dict(orient='records')`, a metadata block
   (`fuente_original`, `fecha_conversion` = wall clock, `registros_procesados`
   = number of records), and the final document are assembled;
5. the document is dumped to `archivo_salida` (opened with `open(..., 'w')`);
6. the `except` chain matches, in order, `FileNotFoundError`, `ValueError`
   and `Exception`; every handler just prints and the script then terminates
   normally (no `sys.exit`, so the interpreter exit status is 0).

Library calls (pandas, `open`, `json.dump`) are modelled by their observable
results, supplied by a `World` record; clock reads are a `now` parameter;
the behaviour of `pd.to_datetime` on one cell is a function parameter `toDT`.
Per the pandas documentation, a date-parse failure on a string raises
`DateParseError` / `dateutil.parser.ParserError`, both subclasses of
`ValueError`; other to_datetime failures (e.g. `TypeError` on
non-convertible cell types) are not `ValueError`s.  The `toDT` parameter
therefore reports its failures already classified as ValueError-like or not.
-/

namespace Convertidor

/-- Scalar cell values a loaded table can hold (JSON-representable scalars). -/
inductive Value where
  | str (s : String)
  | int (n : Int)
  | bool (b : Bool)
  | null
deriving DecidableEq, Repr

/-- One table row as produced by `df.to_dict(orient='records')`:
a mapping from column name to scalar value. -/
abbrev Row := List (String × Value)

/-- Dictionary lookup on a row (first binding of the key wins). -/
def getVal (r : Row) (k : String) : Option Value :=
  (r.find? (fun kv => kv.1 == k)).map Prod.snd

/-- The in-memory table: column header plus the data rows. -/
structure DataFrame where
  columns : List String
  rows : List Row
deriving DecidableEq, Repr

/-- Index of the last occurrence of `c` in `l`, or `-1` when absent
(Python `str.rfind`). -/
def rfindChar (l : List Char) (c : Char) : Int :=
  match l with
  | [] => -1
  | a :: as =>
    let r := rfindChar as c
    if r ≥ 0 then r + 1
    else if a = c then 0 else -1

/-- The extension component of `os.path.splitext` (posix rules): the suffix
from the last dot of the basename, unless the basename up to that dot is
all dots (leading dots of a hidden file carry no extension). -/
def splitext_ext (p : String) : String :=
  let l := p.data
  let sepIndex := rfindChar l '/'
  let dotIndex := rfindChar l '.'
  if sepIndex < dotIndex then
    let base := (l.drop (sepIndex + 1).toNat).take (dotIndex - sepIndex - 1).toNat
    if base.all (fun a => a == '.') then "" else String.mk (l.drop dotIndex.toNat)
  else ""

/-- Which pandas loader the dispatch selects. -/
inductive Loader where
  | excel
  | csv
deriving DecidableEq, Repr

/-- A library failure that is not a `FileNotFoundError`: either a
`ValueError` (or subclass, such as a pandas date-parse error) or any other
exception class. -/
inductive LibErr where
  | valueError (msg : String)
  | otherError (msg : String)
deriving DecidableEq, Repr

/-- The exception classes the script's `except` chain distinguishes. -/
inductive PyExc where
  | fileNotFound
  | valueError (msg : String)
  | otherError (msg : String)
deriving DecidableEq, Repr

/-- View a non-file-not-found library failure as a raised exception. -/
def LibErr.toExc : LibErr → PyExc
  | .valueError m => .valueError m
  | .otherError m => .otherError m

/-- A failure of `open(archivo_salida, 'w')`: `FileNotFoundError` (e.g. a
missing directory component, or a deleted working directory) or any other
`OSError` such as `PermissionError`. -/
inductive WriteErr where
  | fileNotFound
  | otherError (msg : String)
deriving DecidableEq, Repr

/-- View a write-open failure as a raised exception. -/
def WriteErr.toExc : WriteErr → PyExc
  | .fileNotFound => .fileNotFound
  | .otherError m => .otherError m

/-- The observable behaviour of the filesystem and the pandas parsers during
one run: whether the input path exists, what each parser would return on the
existing input file (a table, or a non-FileNotFoundError parse failure), and
whether `open(archivo_salida, 'w')` fails. -/
structure World where
  inputExists : Bool
  excelParse : Except LibErr DataFrame
  csvParse : Except LibErr DataFrame
  writeOpen : Option WriteErr

/-- A calendar date as `pd.to_datetime` would resolve one cell. -/
structure YMD where
  year : Nat
  month : Nat
  day : Nat
deriving DecidableEq, Repr

/-- Left-pad the decimal form of `n` with zeros to `width` digits. -/
def padNat (width n : Nat) : String :=
  let s := toString n
  String.mk (List.replicate (width - s.length) '0') ++ s

/-- `strftime('%Y-%m-%d')` on a resolved date. -/
def strftimeYMD (d : YMD) : String :=
  padNat 4 d.year ++ "-" ++ padNat 2 d.month ++ "-" ++ padNat 2 d.day

/-- Sequence a fallible cell operation over a list, failing on the first
failure (how `pd.to_datetime` converts a whole column: any unparseable
element fails the whole conversion). -/
def mapExcept {α β ε : Type} (f : α → Except ε β) : List α → Except ε (List β)
  | [] => .ok []
  | a :: as =>
    match f a with
    | .error e => .error e
    | .ok b =>
      match mapExcept f as with
      | .error e => .error e
      | .ok bs => .ok (b :: bs)

/-- The column `df[c]` as a list of cells, in row order. -/
def getColumn (df : DataFrame) (c : String) : List Value :=
  df.rows.map (fun r => (getVal r c).getD Value.null)

/-- Column assignment `df[c] = vs`: in every row, the binding of key `c` is
replaced by the matching element of `vs`. -/
def setColumn (df : DataFrame) (c : String) (vs : List Value) : DataFrame :=
  { df with
    rows := List.zipWith
      (fun r v => r.map (fun kv => if kv.1 = c then (kv.1, v) else kv))
      df.rows vs }

/-- Step 3 of the pipeline:
`if 'Fecha_Compra' in df.columns: df['Fecha_Compra'] = pd.to_datetime(df['Fecha_Compra']).dt.strftime('%Y-%m-%d')`.
A parse failure raises the exception class reported by `toDT`. -/
def normalize (toDT : Value → Except LibErr YMD) (df : DataFrame) :
    Except PyExc DataFrame :=
  if "Fecha_Compra" ∈ df.columns then
    match mapExcept toDT (getColumn df "Fecha_Compra") with
    | .error e => .error e.toExc
    | .ok ds =>
      .ok (setColumn df "Fecha_Compra" (ds.map (fun d => Value.str (strftimeYMD d))))
  else .ok df

/-- `pd.read_excel(archivo_entrada)`: `FileNotFoundError` when the input is
missing, otherwise the parser's result. -/
def read_excel (w : World) : Except PyExc DataFrame :=
  if w.inputExists then
    match w.excelParse with
    | .error e => .error e.toExc
    | .ok df => .ok df
  else .error .fileNotFound

/-- `pd.read_csv(archivo_entrada, encoding='latin-1')`: `FileNotFoundError`
when the input is missing, otherwise the parser's result. -/
def read_csv (w : World) : Except PyExc DataFrame :=
  if w.inputExists then
    match w.csvParse with
    | .error e => .error e.toExc
    | .ok df => .ok df
  else .error .fileNotFound

/-- Run the selected loader. -/
def runLoader : Loader → World → Except PyExc DataFrame
  | .excel, w => read_excel w
  | .csv, w => read_csv w

/-- Steps 1–2: the extension dispatch.  A case-sensitive comparison against
the literal suffixes; anything else raises the `ValueError` of line 36. -/
def chooseLoader (extension : String) : Except PyExc Loader :=
  if extension = ".xlsx" then .ok .excel
  else if extension = ".csv" then .ok .csv
  else .error (.valueError "Formato de archivo no soportado. Use .xlsx o .csv")

/-- The `metadata` dictionary of the output document. -/
structure Metadata where
  fuente_original : String
  fecha_conversion : String
  registros_procesados : Nat
deriving DecidableEq, Repr

/-- The output document `json_final = {'metadata': ..., 'datos': ...}`. -/
structure OutputDoc where
  metadata : Metadata
  datos : List Row
deriving DecidableEq, Repr

/-- `df.to_dict(orient='records')`. -/
def to_dict_records (df : DataFrame) : List Row := df.rows

/-- Step 4: assemble `datos_extraidos`, `metadata` and `json_final`.
`now` is the value of `datetime.datetime.now().isoformat()`. -/
def assemble (inp now : String) (df : DataFrame) : OutputDoc :=
  let datos_extraidos := to_dict_records df
  { metadata :=
      { fuente_original := inp
        fecha_conversion := now
        registros_procesados := datos_extraidos.length }
    datos := datos_extraidos }

/-- How one run ends at the console: the success print, one of the three
`except` handlers, or an uncaught exception escaping the script (which the
interpreter would report as a traceback with non-zero exit status). -/
inductive Outcome where
  | success (doc : OutputDoc)
  | inputNotFound
  | formatError (msg : String)
  | unexpectedError (msg : String)
  | crashed (e : PyExc)
deriving DecidableEq, Repr

/-- The `except` chain of lines 75–83, in order: `FileNotFoundError`,
`ValueError`, `Exception`.  `none` would mean no clause matches and the
exception propagates; the final `except Exception` makes that impossible. -/
def dispatch : PyExc → Option Outcome
  | .fileNotFound => some .inputNotFound
  | .valueError m => some (.formatError m)
  | .otherError m => some (.unexpectedError m)

/-- The console report each exception class produces. -/
def reportOf : PyExc → Outcome
  | .fileNotFound => .inputNotFound
  | .valueError m => .formatError m
  | .otherError m => .unexpectedError m

/-- Everything observable about one finished run: the console outcome, the
interpreter exit status, which loader (if any) was invoked, and the content
of the output path afterwards (`prior` = its content before the run). -/
structure RunResult where
  outcome : Outcome
  exitCode : Nat
  loaderUsed : Option Loader
  outputFile : Option OutputDoc
deriving DecidableEq, Repr

/-- Leave the `try` block with exception `e`: a matching handler prints and
the script ends normally (exit status 0); an unmatched exception would crash
with a non-zero status. -/
def onExc (e : PyExc) (used : Option Loader) (prior : Option OutputDoc) :
    RunResult :=
  match dispatch e with
  | some o => { outcome := o, exitCode := 0, loaderUsed := used, outputFile := prior }
  | none => { outcome := .crashed e, exitCode := 1, loaderUsed := used, outputFile := prior }

/-- Step 5 onward, after a successful load and normalize: open the output
path and dump the document, or raise the write-open failure. -/
def writeStage (L : Loader) (doc : OutputDoc) (w : World)
    (prior : Option OutputDoc) : RunResult :=
  match w.writeOpen with
  | some e => onExc e.toExc (some L) prior
  | none =>
    { outcome := .success doc, exitCode := 0, loaderUsed := some L,
      outputFile := some doc }

/-- Steps 3–5 once a table is loaded. -/
def normalizeStage (inp now : String) (toDT : Value → Except LibErr YMD)
    (L : Loader) (df : DataFrame) (w : World) (prior : Option OutputDoc) :
    RunResult :=
  match normalize toDT df with
  | .error e => onExc e (some L) prior
  | .ok dfn => writeStage L (assemble inp now dfn) w prior

/-- Steps 2–5 once a loader is selected. -/
def loadStage (inp now : String) (toDT : Value → Except LibErr YMD)
    (L : Loader) (w : World) (prior : Option OutputDoc) : RunResult :=
  match runLoader L w with
  | .error e => onExc e (some L) prior
  | .ok df => normalizeStage inp now toDT L df w prior

/-- The whole guarded run of `convertidor.py` on input path `inp`: the `try`
block of lines 21–70 together with the `except` chain of lines 75–83. -/
def convert (inp : String) (w : World) (toDT : Value → Except LibErr YMD)
    (now : String) (prior : Option OutputDoc) : RunResult :=
  match chooseLoader (splitext_ext inp) with
  | .error e => onExc e none prior
  | .ok L => loadStage inp now toDT L w prior

/-- The input path constant of line 11. -/
def archivo_entrada : String := "datos_prueba.csv"

/-- The output path constant of line 13. -/
def archivo_salida : String := "salida.json"

/-! ## Concrete instantiations used to exercise the model

A small executable stand-in for the `toDT` parameter and a few concrete
worlds, used to evaluate the pipeline at specific inputs. -/

/-- Split a character list at every slash. -/
def splitSlash : List Char → List (List Char)
  | [] => [[]]
  | c :: cs =>
    let r := splitSlash cs
    if c = '/' then [] :: r
    else
      match r with
      | [] => [[c]]
      | g :: gs => (c :: g) :: gs

/-- Accumulate a decimal value over digit characters; `none` on a
non-digit. -/
def digitsValAux (acc : Nat) : List Char → Option Nat
  | [] => some acc
  | c :: cs => if c.isDigit then digitsValAux (10 * acc + (c.toNat - 48)) cs else none

/-- The decimal value of a non-empty all-digit character list. -/
def digitsVal (l : List Char) : Option Nat :=
  match l with
  | [] => none
  | _ :: _ => digitsValAux 0 l

/-- A concrete stand-in for `pd.to_datetime` on one cell: accepts
`MM/DD/YYYY` strings; any other string fails with a ValueError-class
parse error (as pandas raises for unparseable strings) and a non-string
cell fails with a non-ValueError class. -/
def parseUS (v : Value) : Except LibErr YMD :=
  match v with
  | .str s =>
    match splitSlash s.data with
    | [m, d, y] =>
      match digitsVal m, digitsVal d, digitsVal y with
      | some mn, some dn, some yn => .ok ⟨yn, mn, dn⟩
      | _, _, _ => .error (.valueError ("Unknown string format: " ++ s))
    | _ => .error (.valueError ("Unknown string format: " ++ s))
  | _ => .error (.otherError "not convertible to datetime")

/-- A two-row table with a `Fecha_Compra` column in `MM/DD/YYYY` form. -/
def dfSample : DataFrame :=
  { columns := ["Producto", "Fecha_Compra"],
    rows := [[("Producto", .str "Laptop"), ("Fecha_Compra", .str "03/15/2024")],
             [("Producto", .str "Mouse"), ("Fecha_Compra", .str "04/01/2024")]] }

/-- A one-row table whose `Fecha_Compra` cell is not a date. -/
def dfBadDate : DataFrame :=
  { columns := ["Producto", "Fecha_Compra"],
    rows := [[("Producto", .str "Laptop"), ("Fecha_Compra", .str "pronto")]] }

/-- A world where the input exists, parses as `dfSample`, and the output
path opens fine. -/
def worldCsvOk : World :=
  { inputExists := true, excelParse := .error (.otherError "not an xlsx"),
    csvParse := .ok dfSample, writeOpen := none }

/-- A world where no file exists at the input path. -/
def worldMissing : World :=
  { inputExists := false, excelParse := .error (.otherError "missing"),
    csvParse := .error (.otherError "missing"), writeOpen := none }

/-- A world where everything up to the write succeeds but
`open(archivo_salida, 'w')` raises `FileNotFoundError`. -/
def worldWriteFNF : World :=
  { worldCsvOk with writeOpen := some .fileNotFound }

/-- A world where the input parses as `dfBadDate`. -/
def worldBadDate : World :=
  { worldCsvOk with csvParse := .ok dfBadDate }

/-- The document the run on `worldCsvOk` writes when the clock reads
`"t"`. -/
def docSample : OutputDoc :=
  { metadata := { fuente_original := "datos_prueba.csv", fecha_conversion := "t",
                  registros_procesados := 2 },
    datos := [[("Producto", .str "Laptop"), ("Fecha_Compra", .str "2024-03-15")],
              [("Producto", .str "Mouse"), ("Fecha_Compra", .str "2024-04-01")]] }

/-- The same document at clock reading `"t2"`. -/
def docSample2 : OutputDoc :=
  { docSample with
    metadata := { docSample.metadata with fecha_conversion := "t2" } }

/-! ## Stage equations and error classification -/

/-- Reducing `onExc` through the handler chain: every exception class is
matched by some handler, the handler prints, and the script exits 0. -/
theorem onExc_eq (e : PyExc) (u : Option Loader) (p : Option OutputDoc) :
    onExc e u p =
      { outcome := reportOf e, exitCode := 0, loaderUsed := u, outputFile := p } := by
  cases e <;> rfl

theorem reportOf_ne_success (e : PyExc) (d : OutputDoc) :
    reportOf e ≠ Outcome.success d := by
  cases e <;> simp [reportOf]

theorem reportOf_ne_crashed (e x : PyExc) : reportOf e ≠ Outcome.crashed x := by
  cases e <;> simp [reportOf]

theorem reportOf_inputNotFound_iff (e : PyExc) :
    reportOf e = Outcome.inputNotFound ↔ e = PyExc.fileNotFound := by
  cases e <;> simp [reportOf]

theorem LibErr.toExc_ne_fnf (e : LibErr) : e.toExc ≠ PyExc.fileNotFound := by
  cases e <;> simp [LibErr.toExc]

theorem convert_chooseErr (inp : String) (w : World)
    (toDT : Value → Except LibErr YMD) (now : String) (prior : Option OutputDoc)
    (e : PyExc) (hc : chooseLoader (splitext_ext inp) = .error e) :
    convert inp w toDT now prior = onExc e none prior := by
  unfold convert; rw [hc]

theorem convert_chooseOk (inp : String) (w : World)
    (toDT : Value → Except LibErr YMD) (now : String) (prior : Option OutputDoc)
    (L : Loader) (hc : chooseLoader (splitext_ext inp) = .ok L) :
    convert inp w toDT now prior = loadStage inp now toDT L w prior := by
  unfold convert; rw [hc]

theorem loadStage_err (inp now : String) (toDT : Value → Except LibErr YMD)
    (L : Loader) (w : World) (prior : Option OutputDoc) (e : PyExc)
    (hr : runLoader L w = .error e) :
    loadStage inp now toDT L w prior = onExc e (some L) prior := by
  unfold loadStage; rw [hr]

theorem loadStage_ok (inp now : String) (toDT : Value → Except LibErr YMD)
    (L : Loader) (w : World) (prior : Option OutputDoc) (df : DataFrame)
    (hr : runLoader L w = .ok df) :
    loadStage inp now toDT L w prior = normalizeStage inp now toDT L df w prior := by
  unfold loadStage; rw [hr]

theorem normalizeStage_err (inp now : String) (toDT : Value → Except LibErr YMD)
    (L : Loader) (df : DataFrame) (w : World) (prior : Option OutputDoc) (e : PyExc)
    (hn : normalize toDT df = .error e) :
    normalizeStage inp now toDT L df w prior = onExc e (some L) prior := by
  unfold normalizeStage; rw [hn]

theorem normalizeStage_ok (inp now : String) (toDT : Value → Except LibErr YMD)
    (L : Loader) (df : DataFrame) (w : World) (prior : Option OutputDoc)
    (dfn : DataFrame) (hn : normalize toDT df = .ok dfn) :
    normalizeStage inp now toDT L df w prior =
      writeStage L (assemble inp now dfn) w prior := by
  unfold normalizeStage; rw [hn]

theorem writeStage_err (L : Loader) (doc : OutputDoc) (w : World)
    (prior : Option OutputDoc) (we : WriteErr) (hw : w.writeOpen = some we) :
    writeStage L doc w prior = onExc we.toExc (some L) prior := by
  unfold writeStage; rw [hw]

theorem writeStage_ok (L : Loader) (doc : OutputDoc) (w : World)
    (prior : Option OutputDoc) (hw : w.writeOpen = none) :
    writeStage L doc w prior =
      { outcome := Outcome.success doc, exitCode := 0, loaderUsed := some L,
        outputFile := some doc } := by
  unfold writeStage; rw [hw]

/-- The extension dispatch has exactly three outcomes. -/
theorem chooseLoader_cases (s : String) :
    (s = ".xlsx" ∧ chooseLoader s = .ok Loader.excel) ∨
    (s ≠ ".xlsx" ∧ s = ".csv" ∧ chooseLoader s = .ok Loader.csv) ∨
    (s ≠ ".xlsx" ∧ s ≠ ".csv" ∧
      chooseLoader s =
        .error (.valueError "Formato de archivo no soportado. Use .xlsx o .csv")) := by
  by_cases h1 : s = ".xlsx"
  · exact Or.inl ⟨h1, by simp [chooseLoader, h1]⟩
  · by_cases h2 : s = ".csv"
    · exact Or.inr (Or.inl ⟨h1, h2, by simp [chooseLoader, h1, h2]⟩)
    · exact Or.inr (Or.inr ⟨h1, h2, by simp [chooseLoader, h1, h2]⟩)

/-- A missing input makes either loader raise `FileNotFoundError`. -/
theorem runLoader_missing (L : Loader) (w : World) (h : w.inputExists = false) :
    runLoader L w = .error PyExc.fileNotFound := by
  cases L <;> simp [runLoader, read_excel, read_csv, h]

/-- Classification of loader failures: `FileNotFoundError` exactly when the
input is missing; an existing input only fails with a parser-raised
(non-FileNotFoundError) class. -/
theorem runLoader_error_cases (L : Loader) (w : World) (e : PyExc)
    (h : runLoader L w = .error e) :
    (w.inputExists = false ∧ e = PyExc.fileNotFound) ∨
    (w.inputExists = true ∧ ∃ le : LibErr, e = le.toExc) := by
  cases hex : w.inputExists with
  | false =>
    rw [runLoader_missing L w hex] at h
    exact Or.inl ⟨rfl, by injection h with h2; exact h2.symm⟩
  | true =>
    refine Or.inr ⟨rfl, ?_⟩
    cases L with
    | excel =>
      simp only [runLoader, read_excel, hex, if_true] at h
      cases hp : w.excelParse with
      | error le => rw [hp] at h; exact ⟨le, by injection h with h2; exact h2.symm⟩
      | ok df => rw [hp] at h; exact absurd h (by simp)
    | csv =>
      simp only [runLoader, read_csv, hex, if_true] at h
      cases hp : w.csvParse with
      | error le => rw [hp] at h; exact ⟨le, by injection h with h2; exact h2.symm⟩
      | ok df => rw [hp] at h; exact absurd h (by simp)

/-- A normalize failure is always a parser-raised class, never
`FileNotFoundError`, and only happens when the special column exists and
some cell fails to parse. -/
theorem normalize_error_cases (toDT : Value → Except LibErr YMD)
    (df : DataFrame) (e : PyExc) (h : normalize toDT df = .error e) :
    ∃ le : LibErr, e = le.toExc ∧ "Fecha_Compra" ∈ df.columns ∧
      mapExcept toDT (getColumn df "Fecha_Compra") = .error le := by
  unfold normalize at h
  by_cases hc : "Fecha_Compra" ∈ df.columns
  · rw [if_pos hc] at h
    cases hm : mapExcept toDT (getColumn df "Fecha_Compra") with
    | error le =>
      rw [hm] at h
      exact ⟨le, by injection h with h2; exact h2.symm, hc, rfl⟩
    | ok ds => rw [hm] at h; exact absurd h (by simp)
  · rw [if_neg hc] at h; exact absurd h (by simp)

/-- A successful normalize, when the special column exists. -/
theorem normalize_ok_col (toDT : Value → Except LibErr YMD) (df : DataFrame)
    (ds : List YMD) (hc : "Fecha_Compra" ∈ df.columns)
    (hm : mapExcept toDT (getColumn df "Fecha_Compra") = .ok ds) :
    normalize toDT df =
      .ok (setColumn df "Fecha_Compra" (ds.map (fun d => Value.str (strftimeYMD d)))) := by
  unfold normalize; rw [if_pos hc, hm]

/-- A successful normalize, when the special column is absent. -/
theorem normalize_ok_nocol (toDT : Value → Except LibErr YMD) (df : DataFrame)
    (hc : "Fecha_Compra" ∉ df.columns) : normalize toDT df = .ok df := by
  unfold normalize; rw [if_neg hc]

/-- The canonical success decomposition of a run. -/
theorem convert_success_iff (inp : String) (w : World)
    (toDT : Value → Except LibErr YMD) (now : String) (prior : Option OutputDoc)
    (doc : OutputDoc) :
    (convert inp w toDT now prior).outcome = Outcome.success doc ↔
      ∃ L df dfn, chooseLoader (splitext_ext inp) = .ok L ∧
        runLoader L w = .ok df ∧ normalize toDT df = .ok dfn ∧
        w.writeOpen = none ∧ doc = assemble inp now dfn := by
  constructor
  · intro h
    cases hc : chooseLoader (splitext_ext inp) with
    | error e =>
      rw [convert_chooseErr inp w toDT now prior e hc, onExc_eq] at h
      exact absurd h (reportOf_ne_success e doc)
    | ok L =>
      rw [convert_chooseOk inp w toDT now prior L hc] at h
      cases hr : runLoader L w with
      | error e =>
        rw [loadStage_err inp now toDT L w prior e hr, onExc_eq] at h
        exact absurd h (reportOf_ne_success e doc)
      | ok df =>
        rw [loadStage_ok inp now toDT L w prior df hr] at h
        cases hn : normalize toDT df with
        | error e =>
          rw [normalizeStage_err inp now toDT L df w prior e hn, onExc_eq] at h
          exact absurd h (reportOf_ne_success e doc)
        | ok dfn =>
          rw [normalizeStage_ok inp now toDT L df w prior dfn hn] at h
          cases hw : w.writeOpen with
          | some we =>
            rw [writeStage_err L (assemble inp now dfn) w prior we hw, onExc_eq] at h
            exact absurd h (reportOf_ne_success we.toExc doc)
          | none =>
            rw [writeStage_ok L (assemble inp now dfn) w prior hw] at h
            refine ⟨L, df, dfn, rfl, hr, hn, rfl, ?_⟩
            injection h with h2
            exact h2.symm
  · rintro ⟨L, df, dfn, hc, hr, hn, hw, hd⟩
    rw [convert_chooseOk inp w toDT now prior L hc,
      loadStage_ok inp now toDT L w prior df hr,
      normalizeStage_ok inp now toDT L df w prior dfn hn,
      writeStage_ok L (assemble inp now dfn) w prior hw, hd]

/-! ## List and row lemmas -/

theorem mapExcept_ok_length {α β ε : Type} (f : α → Except ε β) :
    ∀ (as : List α) (bs : List β), mapExcept f as = .ok bs → bs.length = as.length
  | [], bs, h => by
    simp only [mapExcept] at h
    injection h with h2
    subst h2
    rfl
  | a :: as, bs, h => by
    cases hf : f a with
    | error e => simp only [mapExcept, hf] at h; exact Except.noConfusion h
    | ok b =>
      cases hm : mapExcept f as with
      | error e => simp only [mapExcept, hf, hm] at h; exact Except.noConfusion h
      | ok bs2 =>
        simp only [mapExcept, hf, hm] at h
        injection h with h2
        subst h2
        simp [mapExcept_ok_length f as bs2 hm]

theorem mapExcept_ok_get {α β ε : Type} (f : α → Except ε β) :
    ∀ (as : List α) (bs : List β), mapExcept f as = .ok bs →
      ∀ (i : Nat) (h1 : i < as.length) (h2 : i < bs.length),
        f (as.get ⟨i, h1⟩) = .ok (bs.get ⟨i, h2⟩)
  | [], _, _, _, h1, _ => absurd h1 (by simp)
  | a :: as, bs, h, i, h1, h2 => by
    cases hf : f a with
    | error e => simp only [mapExcept, hf] at h; exact Except.noConfusion h
    | ok b =>
      cases hm : mapExcept f as with
      | error e => simp only [mapExcept, hf, hm] at h; exact Except.noConfusion h
      | ok bs2 =>
        simp only [mapExcept, hf, hm] at h
        injection h with h3
        subst h3
        cases i with
        | zero => simpa using hf
        | succ n =>
          have hn1 : n < as.length := Nat.lt_of_succ_lt_succ (by simpa using h1)
          have hn2 : n < bs2.length := Nat.lt_of_succ_lt_succ (by simpa using h2)
          simpa using mapExcept_ok_get f as bs2 hm n hn1 hn2

theorem getVal_cons_self (a : String) (b : Value) (r : Row) :
    getVal ((a, b) :: r) a = some b := by
  simp [getVal]

theorem getVal_cons_ne (a : String) (b : Value) (r : Row) (k : String)
    (h : ¬(a = k)) : getVal ((a, b) :: r) k = getVal r k := by
  simp [getVal, List.find?_cons, h]

/-- Replacing the `c` column leaves lookups of every other key unchanged. -/
theorem getVal_replace_ne (r : Row) (c k : String) (u : Value) (hk : k ≠ c) :
    getVal (r.map (fun kv => if kv.1 = c then (kv.1, u) else kv)) k =
      getVal r k := by
  induction r with
  | nil => rfl
  | cons kv r ih =>
    rcases kv with ⟨a, b⟩
    rw [List.map_cons]
    by_cases hac : a = c
    · subst hac
      have hak : ¬(a = k) := fun h => hk (h.symm)
      rw [if_pos rfl]
      rw [getVal_cons_ne a u _ k hak, getVal_cons_ne a b r k hak]
      exact ih
    · rw [if_neg hac]
      by_cases hak : a = k
      · subst hak
        rw [getVal_cons_self, getVal_cons_self]
      · rw [getVal_cons_ne a b _ k hak, getVal_cons_ne a b r k hak]
        exact ih

/-- Replacing the `c` column rewrites the lookup of `c` itself, whenever
the row held a binding for `c`. -/
theorem getVal_replace_self (r : Row) (c : String) (u v : Value)
    (h : getVal r c = some v) :
    getVal (r.map (fun kv => if kv.1 = c then (kv.1, u) else kv)) c = some u := by
  induction r with
  | nil => simp [getVal] at h
  | cons kv r ih =>
    rcases kv with ⟨a, b⟩
    rw [List.map_cons]
    by_cases hac : a = c
    · subst hac
      rw [if_pos rfl, getVal_cons_self]
    · rw [if_neg hac, getVal_cons_ne a b _ c hac]
      exact ih (by rwa [getVal_cons_ne a b r c hac] at h)

theorem setColumn_rows_get (df : DataFrame) (c : String) (vs : List Value)
    (i : Nat) (hi : i < (setColumn df c vs).rows.length)
    (h1 : i < df.rows.length) (h2 : i < vs.length) :
    (setColumn df c vs).rows.get ⟨i, hi⟩ =
      (df.rows.get ⟨i, h1⟩).map
        (fun kv => if kv.1 = c then (kv.1, vs.get ⟨i, h2⟩) else kv) := by
  simp [setColumn, List.getElem_zipWith]

theorem setColumn_rows_length (df : DataFrame) (c : String) (vs : List Value)
    (h : vs.length = df.rows.length) :
    (setColumn df c vs).rows.length = df.rows.length := by
  simp [setColumn, List.length_zipWith, h]

theorem getColumn_get (df : DataFrame) (c : String) (i : Nat)
    (hi : i < (getColumn df c).length) (h1 : i < df.rows.length) :
    (getColumn df c).get ⟨i, hi⟩ =
      (getVal (df.rows.get ⟨i, h1⟩) c).getD Value.null := by
  simp [getColumn]

/-- Inverting a successful normalize when the special column exists. -/
theorem normalize_ok_col_inv (toDT : Value → Except LibErr YMD)
    (df dfn : DataFrame) (hc : "Fecha_Compra" ∈ df.columns)
    (h : normalize toDT df = .ok dfn) :
    ∃ ds, mapExcept toDT (getColumn df "Fecha_Compra") = .ok ds ∧
      dfn = setColumn df "Fecha_Compra"
        (ds.map (fun d => Value.str (strftimeYMD d))) := by
  unfold normalize at h
  rw [if_pos hc] at h
  cases hm : mapExcept toDT (getColumn df "Fecha_Compra") with
  | error e => rw [hm] at h; exact Except.noConfusion h
  | ok ds =>
    rw [hm] at h
    injection h with h2
    exact ⟨ds, rfl, h2.symm⟩

theorem normalize_rows_length (toDT : Value → Except LibErr YMD)
    (df dfn : DataFrame) (h : normalize toDT df = .ok dfn) :
    dfn.rows.length = df.rows.length := by
  by_cases hc : "Fecha_Compra" ∈ df.columns
  · rcases normalize_ok_col_inv toDT df dfn hc h with ⟨ds, hm, hdfn⟩
    have hds : ds.length = df.rows.length := by
      have := mapExcept_ok_length toDT (getColumn df "Fecha_Compra") ds hm
      simpa [getColumn] using this
    rw [hdfn]
    exact setColumn_rows_length df _ _ (by simpa using hds)
  · rw [normalize_ok_nocol toDT df hc] at h
    injection h with h2
    rw [← h2]

/-! ## Global run facts -/

/-- Every run ends in one of three shapes: rejected before any loader ran,
failed after a loader ran, or fully successful. -/
theorem convert_result_cases (inp : String) (w : World)
    (toDT : Value → Except LibErr YMD) (now : String) (prior : Option OutputDoc) :
    (∃ e : PyExc, convert inp w toDT now prior = onExc e none prior ∧
        chooseLoader (splitext_ext inp) = .error e) ∨
    (∃ (L : Loader) (e : PyExc), convert inp w toDT now prior = onExc e (some L) prior) ∨
    (∃ (L : Loader) (doc : OutputDoc), convert inp w toDT now prior =
        { outcome := Outcome.success doc, exitCode := 0, loaderUsed := some L,
          outputFile := some doc }) := by
  cases hc : chooseLoader (splitext_ext inp) with
  | error e => exact Or.inl ⟨e, convert_chooseErr inp w toDT now prior e hc, rfl⟩
  | ok L =>
    rw [convert_chooseOk inp w toDT now prior L hc]
    cases hr : runLoader L w with
    | error e => exact Or.inr (Or.inl ⟨L, e, loadStage_err inp now toDT L w prior e hr⟩)
    | ok df =>
      rw [loadStage_ok inp now toDT L w prior df hr]
      cases hn : normalize toDT df with
      | error e =>
        exact Or.inr (Or.inl ⟨L, e, normalizeStage_err inp now toDT L df w prior e hn⟩)
      | ok dfn =>
        rw [normalizeStage_ok inp now toDT L df w prior dfn hn]
        cases hw : w.writeOpen with
        | some we =>
          exact Or.inr (Or.inl ⟨L, we.toExc,
            writeStage_err L (assemble inp now dfn) w prior we hw⟩)
        | none =>
          exact Or.inr (Or.inr ⟨L, assemble inp now dfn,
            writeStage_ok L (assemble inp now dfn) w prior hw⟩)

/-- Any loader selection is remembered on every later path. -/
theorem loadStage_loaderUsed (inp now : String) (toDT : Value → Except LibErr YMD)
    (L : Loader) (w : World) (prior : Option OutputDoc) :
    (loadStage inp now toDT L w prior).loaderUsed = some L := by
  cases hr : runLoader L w with
  | error e => rw [loadStage_err inp now toDT L w prior e hr, onExc_eq]
  | ok df =>
    rw [loadStage_ok inp now toDT L w prior df hr]
    cases hn : normalize toDT df with
    | error e => rw [normalizeStage_err inp now toDT L df w prior e hn, onExc_eq]
    | ok dfn =>
      rw [normalizeStage_ok inp now toDT L df w prior dfn hn]
      cases hw : w.writeOpen with
      | some we => rw [writeStage_err L (assemble inp now dfn) w prior we hw, onExc_eq]
      | none => rw [writeStage_ok L (assemble inp now dfn) w prior hw]

/-- Only a fully successful run touches the output path. -/
theorem convert_outputFile_cases (inp : String) (w : World)
    (toDT : Value → Except LibErr YMD) (now : String) (prior : Option OutputDoc) :
    (convert inp w toDT now prior).outputFile = prior ∨
    ∃ doc, (convert inp w toDT now prior).outcome = Outcome.success doc ∧
      (convert inp w toDT now prior).outputFile = some doc := by
  rcases convert_result_cases inp w toDT now prior with
    ⟨e, he, _⟩ | ⟨L, e, he⟩ | ⟨L, doc, he⟩
  · rw [he, onExc_eq]; exact Or.inl rfl
  · rw [he, onExc_eq]; exact Or.inl rfl
  · rw [he]; exact Or.inr ⟨doc, rfl, rfl⟩

theorem chooseLoader_error_inv (s : String) (e : PyExc)
    (h : chooseLoader s = .error e) :
    e = PyExc.valueError "Formato de archivo no soportado. Use .xlsx o .csv" := by
  unfold chooseLoader at h
  by_cases h1 : s = ".xlsx"
  · rw [if_pos h1] at h; exact Except.noConfusion h
  · rw [if_neg h1] at h
    by_cases h2 : s = ".csv"
    · rw [if_pos h2] at h; exact Except.noConfusion h
    · rw [if_neg h2] at h; injection h with h3; exact h3.symm

/-! ## Claims -/

/-- C1 (amended): every failure raised inside the run is matched by one of
the three except clauses — no run ends in an uncaught exception — but every
handler only prints, so the interpreter terminates with exit status 0 on
every run, failure included; no non-zero status reaches the caller. -/
theorem C1_caught_but_exit_zero (inp : String) (w : World)
    (toDT : Value → Except LibErr YMD) (now : String) (prior : Option OutputDoc) :
    (convert inp w toDT now prior).exitCode = 0 ∧
      ∀ e : PyExc, (convert inp w toDT now prior).outcome ≠ Outcome.crashed e := by
  rcases convert_result_cases inp w toDT now prior with
    ⟨e, he, _⟩ | ⟨L, e, he⟩ | ⟨L, doc, he⟩
  · rw [he, onExc_eq]; exact ⟨rfl, fun x => reportOf_ne_crashed e x⟩
  · rw [he, onExc_eq]; exact ⟨rfl, fun x => reportOf_ne_crashed e x⟩
  · rw [he]; exact ⟨rfl, fun x h => Outcome.noConfusion h⟩

/-- C1 witness: a concrete failing run (missing input) exits with status 0. -/
theorem C1_caught_but_exit_zero_witness :
    (convert archivo_entrada worldMissing parseUS "t" none).exitCode = 0 :=
  (C1_caught_but_exit_zero archivo_entrada worldMissing parseUS "t" none).1

/-- C1 counterexample: on input path `foo.txt` the run ends in the
FormatError failure outcome, yet the interpreter exit status is 0 — the
claimed non-zero/failure status is not signalled. -/
theorem C1_counterexample :
    (convert "foo.txt" worldCsvOk parseUS "t" none).outcome =
        Outcome.formatError "Formato de archivo no soportado. Use .xlsx o .csv" ∧
      (convert "foo.txt" worldCsvOk parseUS "t" none).exitCode = 0 :=
  ⟨rfl, rfl⟩

/-- C2 (amended): the InputNotFound report appears iff the extension was
recognized and either the input path did not exist at load time, or load
and normalize succeeded and `open(archivo_salida, 'w')` itself raised
`FileNotFoundError` — a write-stage file-not-found is reported as
InputNotFound, not UnexpectedError, because the `except FileNotFoundError`
clause guards the write too. -/
theorem C2_inputNotFound_iff (inp : String) (w : World)
    (toDT : Value → Except LibErr YMD) (now : String) (prior : Option OutputDoc) :
    (convert inp w toDT now prior).outcome = Outcome.inputNotFound ↔
      ∃ L, chooseLoader (splitext_ext inp) = .ok L ∧
        (w.inputExists = false ∨
          ∃ df dfn, runLoader L w = .ok df ∧ normalize toDT df = .ok dfn ∧
            w.writeOpen = some WriteErr.fileNotFound) := by
  constructor
  · intro h
    cases hc : chooseLoader (splitext_ext inp) with
    | error e =>
      rw [convert_chooseErr inp w toDT now prior e hc, onExc_eq] at h
      rw [chooseLoader_error_inv _ e hc] at h
      exact Outcome.noConfusion h
    | ok L =>
      rw [convert_chooseOk inp w toDT now prior L hc] at h
      refine ⟨L, rfl, ?_⟩
      cases hr : runLoader L w with
      | error e =>
        rw [loadStage_err inp now toDT L w prior e hr, onExc_eq] at h
        rcases runLoader_error_cases L w e hr with ⟨hex, _⟩ | ⟨_, le, hle⟩
        · exact Or.inl hex
        · rw [hle] at h
          exact absurd ((reportOf_inputNotFound_iff le.toExc).mp h)
            (LibErr.toExc_ne_fnf le)
      | ok df =>
        rw [loadStage_ok inp now toDT L w prior df hr] at h
        cases hn : normalize toDT df with
        | error e =>
          rw [normalizeStage_err inp now toDT L df w prior e hn, onExc_eq] at h
          rcases normalize_error_cases toDT df e hn with ⟨le, hle, _, _⟩
          rw [hle] at h
          exact absurd ((reportOf_inputNotFound_iff le.toExc).mp h)
            (LibErr.toExc_ne_fnf le)
        | ok dfn =>
          rw [normalizeStage_ok inp now toDT L df w prior dfn hn] at h
          cases hw : w.writeOpen with
          | some we =>
            rw [writeStage_err L (assemble inp now dfn) w prior we hw, onExc_eq] at h
            cases we with
            | fileNotFound => exact Or.inr ⟨df, dfn, rfl, hn, rfl⟩
            | otherError m => exact Outcome.noConfusion h
          | none =>
            rw [writeStage_ok L (assemble inp now dfn) w prior hw] at h
            exact Outcome.noConfusion h
  · rintro ⟨L, hc, hmiss | ⟨df, dfn, hr, hn, hw⟩⟩
    · rw [convert_chooseOk inp w toDT now prior L hc,
        loadStage_err inp now toDT L w prior PyExc.fileNotFound
          (runLoader_missing L w hmiss), onExc_eq]
      rfl
    · rw [convert_chooseOk inp w toDT now prior L hc,
        loadStage_ok inp now toDT L w prior df hr,
        normalizeStage_ok inp now toDT L df w prior dfn hn,
        writeStage_err L (assemble inp now dfn) w prior WriteErr.fileNotFound hw,
        onExc_eq]
      rfl

/-- C2 witness: the amended characterization applied at a concrete world
where the write open fails with FileNotFoundError. -/
theorem C2_inputNotFound_iff_witness :
    (convert archivo_entrada worldWriteFNF parseUS "t2" none).outcome =
      Outcome.inputNotFound :=
  (C2_inputNotFound_iff archivo_entrada worldWriteFNF parseUS "t2" none).mpr
    ⟨Loader.csv, rfl, Or.inr ⟨dfSample, _, rfl, rfl, rfl⟩⟩

/-- C2 counterexample: input exists and loads fine, the write open raises
`FileNotFoundError`, and the run is reported as InputNotFound — a
write-stage I/O failure reported as InputNotFound, refuting both
directions of the claim. -/
theorem C2_counterexample :
    (convert archivo_entrada worldWriteFNF parseUS "t" none).outcome =
        Outcome.inputNotFound ∧
      worldWriteFNF.inputExists = true ∧
      worldWriteFNF.writeOpen = some WriteErr.fileNotFound :=
  ⟨rfl, rfl, rfl⟩

/-- C3: whenever a run succeeds on a loaded table, the written document has
`registros_procesados` equal to the length of its `datos` array, and that
length equals the number of data rows of the loaded table. -/
theorem C3_round_trip_row_count (inp : String) (w : World)
    (toDT : Value → Except LibErr YMD) (now : String) (prior : Option OutputDoc)
    (L : Loader) (df : DataFrame) (doc : OutputDoc)
    (hL : chooseLoader (splitext_ext inp) = .ok L)
    (hdf : runLoader L w = .ok df)
    (hs : (convert inp w toDT now prior).outcome = Outcome.success doc) :
    doc.metadata.registros_procesados = doc.datos.length ∧
      doc.datos.length = df.rows.length := by
  rcases (convert_success_iff inp w toDT now prior doc).mp hs with
    ⟨L2, df2, dfn, hc2, hr2, hn2, hw2, hdoc⟩
  have hL2 : L2 = L := by
    have h := hc2.symm.trans hL
    injection h
  rw [hL2] at hr2
  have hdf2 : df2 = df := by
    have h := hr2.symm.trans hdf
    injection h
  rw [hdf2] at hn2
  subst hdoc
  exact ⟨rfl, normalize_rows_length toDT df dfn hn2⟩

/-- C3 witness: the sample run writes exactly the 2 loaded rows and reports
`registros_procesados = 2`. -/
theorem C3_round_trip_row_count_witness :
    (convert archivo_entrada worldCsvOk parseUS "t" none).outcome =
        Outcome.success docSample ∧
      docSample.metadata.registros_procesados = docSample.datos.length ∧
      docSample.datos.length = dfSample.rows.length :=
  ⟨rfl, C3_round_trip_row_count archivo_entrada worldCsvOk parseUS "t" none
    Loader.csv dfSample docSample rfl rfl rfl⟩

/-- C4: when the loaded table has a `Fecha_Compra` column and the run
succeeds, any cell of that column whose loaded value parses as the date `d`
appears in the written row as exactly the `%Y-%m-%d` text of `d`. -/
theorem C4_date_normalization (inp : String) (w : World)
    (toDT : Value → Except LibErr YMD) (now : String) (prior : Option OutputDoc)
    (L : Loader) (df : DataFrame) (doc : OutputDoc)
    (hL : chooseLoader (splitext_ext inp) = .ok L)
    (hdf : runLoader L w = .ok df)
    (hcol : "Fecha_Compra" ∈ df.columns)
    (hs : (convert inp w toDT now prior).outcome = Outcome.success doc)
    (i : Nat) (hi : i < df.rows.length) (hi2 : i < doc.datos.length)
    (v : Value) (d : YMD)
    (hv : getVal (df.rows.get ⟨i, hi⟩) "Fecha_Compra" = some v)
    (hd : toDT v = .ok d) :
    getVal (doc.datos.get ⟨i, hi2⟩) "Fecha_Compra" =
      some (Value.str (strftimeYMD d)) := by
  rcases (convert_success_iff inp w toDT now prior doc).mp hs with
    ⟨L2, df2, dfn, hc2, hr2, hn2, hw2, hdoc⟩
  have hL2 : L2 = L := by
    have h := hc2.symm.trans hL
    injection h
  rw [hL2] at hr2
  have hdf2 : df2 = df := by
    have h := hr2.symm.trans hdf
    injection h
  rw [hdf2] at hn2
  rcases normalize_ok_col_inv toDT df dfn hcol hn2 with ⟨ds, hm, hdfn⟩
  subst hdfn
  subst hdoc
  have hlds : ds.length = df.rows.length := by
    have h := mapExcept_ok_length toDT (getColumn df "Fecha_Compra") ds hm
    simpa [getColumn] using h
  have hids : i < ds.length := by rw [hlds]; exact hi
  have hivs : i < (ds.map (fun dd => Value.str (strftimeYMD dd))).length := by
    simpa using hids
  have higc : i < (getColumn df "Fecha_Compra").length := by
    simpa [getColumn] using hi
  show getVal
      ((setColumn df "Fecha_Compra"
        (ds.map (fun dd => Value.str (strftimeYMD dd)))).rows.get ⟨i, hi2⟩)
      "Fecha_Compra" = some (Value.str (strftimeYMD d))
  rw [setColumn_rows_get df "Fecha_Compra" _ i hi2 hi hivs]
  rw [getVal_replace_self (df.rows.get ⟨i, hi⟩) "Fecha_Compra" _ v hv]
  have hdsi : ds.get ⟨i, hids⟩ = d := by
    have h1 := mapExcept_ok_get toDT (getColumn df "Fecha_Compra") ds hm i higc hids
    rw [getColumn_get df "Fecha_Compra" i higc hi, hv, Option.getD_some] at h1
    have h2 := h1.symm.trans hd
    injection h2
  have hmap : (ds.map (fun dd => Value.str (strftimeYMD dd))).get ⟨i, hivs⟩ =
      Value.str (strftimeYMD (ds.get ⟨i, hids⟩)) := by
    simp
  rw [hmap, hdsi]

/-- C4 witness: the input cell `03/15/2024` is written as exactly
`2024-03-15`. -/
theorem C4_date_normalization_witness :
    getVal (docSample.datos.get ⟨0, by decide⟩) "Fecha_Compra" =
      some (Value.str "2024-03-15") :=
  C4_date_normalization archivo_entrada worldCsvOk parseUS "t" none Loader.csv
    dfSample docSample rfl rfl (by decide) rfl 0 (by decide) (by decide)
    (Value.str "03/15/2024") ⟨2024, 3, 15⟩ rfl rfl

/-- C5: format detection is a case-sensitive match of the extracted
extension against the literal suffixes: `.xlsx` selects the Excel loader,
`.csv` selects the CSV loader, and anything else (no extension, or a
differently-cased variant) ends the run in the FormatError outcome with no
loader invoked. -/
theorem C5_format_detection (inp : String) (w : World)
    (toDT : Value → Except LibErr YMD) (now : String) (prior : Option OutputDoc) :
    (splitext_ext inp = ".xlsx" →
        (convert inp w toDT now prior).loaderUsed = some Loader.excel) ∧
    (splitext_ext inp = ".csv" →
        (convert inp w toDT now prior).loaderUsed = some Loader.csv) ∧
    (splitext_ext inp ≠ ".xlsx" → splitext_ext inp ≠ ".csv" →
        (convert inp w toDT now prior).outcome =
            Outcome.formatError "Formato de archivo no soportado. Use .xlsx o .csv" ∧
          (convert inp w toDT now prior).loaderUsed = none) := by
  refine ⟨?_, ?_, ?_⟩
  · intro h
    have hc : chooseLoader (splitext_ext inp) = .ok Loader.excel := by
      rw [h]; rfl
    rw [convert_chooseOk inp w toDT now prior Loader.excel hc]
    exact loadStage_loaderUsed inp now toDT Loader.excel w prior
  · intro h
    have hc : chooseLoader (splitext_ext inp) = .ok Loader.csv := by
      rw [h]; rfl
    rw [convert_chooseOk inp w toDT now prior Loader.csv hc]
    exact loadStage_loaderUsed inp now toDT Loader.csv w prior
  · intro h1 h2
    rcases chooseLoader_cases (splitext_ext inp) with
      ⟨h, _⟩ | ⟨_, h, _⟩ | ⟨_, _, hc⟩
    · exact absurd h h1
    · exact absurd h h2
    · rw [convert_chooseErr inp w toDT now prior _ hc, onExc_eq]
      exact ⟨rfl, rfl⟩

/-- C5 witness: `.xlsx` picks the Excel loader, `.csv` (the constant input
name) picks the CSV loader, and the differently-cased `.CSV` is rejected. -/
theorem C5_format_detection_witness :
    (convert "datos.xlsx" worldMissing parseUS "t" none).loaderUsed =
        some Loader.excel ∧
      (convert archivo_entrada worldCsvOk parseUS "t" none).loaderUsed =
        some Loader.csv ∧
      (convert "archivo.CSV" worldCsvOk parseUS "t" none).outcome =
        Outcome.formatError "Formato de archivo no soportado. Use .xlsx o .csv" :=
  ⟨(C5_format_detection "datos.xlsx" worldMissing parseUS "t" none).1 rfl,
   (C5_format_detection archivo_entrada worldCsvOk parseUS "t" none).2.1 rfl,
   ((C5_format_detection "archivo.CSV" worldCsvOk parseUS "t" none).2.2
     (by decide) (by decide)).1⟩

/-- C6: a run that ends in the FormatError or InputNotFound outcome leaves
the output path unchanged: whatever was there before the run (including a
file left by a prior successful run) is still there, untouched. -/
theorem C6_no_output_on_reject (inp : String) (w : World)
    (toDT : Value → Except LibErr YMD) (now : String) (prior : Option OutputDoc)
    (h : (convert inp w toDT now prior).outcome = Outcome.inputNotFound ∨
      ∃ m, (convert inp w toDT now prior).outcome = Outcome.formatError m) :
    (convert inp w toDT now prior).outputFile = prior := by
  rcases convert_outputFile_cases inp w toDT now prior with hp | ⟨doc, hsucc, _⟩
  · exact hp
  · rcases h with h | ⟨m, h⟩ <;> rw [hsucc] at h <;> exact Outcome.noConfusion h

/-- C6 witness: a FormatError run over a world with a document already at
the output path leaves that document in place. -/
theorem C6_no_output_on_reject_witness :
    (convert "foo.txt" worldMissing parseUS "t" (some docSample)).outputFile =
      some docSample :=
  C6_no_output_on_reject "foo.txt" worldMissing parseUS "t" (some docSample)
    (Or.inr ⟨"Formato de archivo no soportado. Use .xlsx o .csv", rfl⟩)

/-- C7 (amended): an unparseable `Fecha_Compra` cell is fatal — the run
aborts with no output written and no per-row recovery — but the failure is
reported through the handler matching the raised exception class: the
`except ValueError` clause (console line `Error de formato: ...`) when the
parse error is a ValueError, which is what pandas raises for unparseable
strings, and the catch-all UnexpectedError clause only for non-ValueError
failures. -/
theorem C7_bad_date_fatal (inp : String) (w : World)
    (toDT : Value → Except LibErr YMD) (now : String) (prior : Option OutputDoc)
    (L : Loader) (df : DataFrame) (le : LibErr)
    (hL : chooseLoader (splitext_ext inp) = .ok L)
    (hdf : runLoader L w = .ok df)
    (hcol : "Fecha_Compra" ∈ df.columns)
    (he : mapExcept toDT (getColumn df "Fecha_Compra") = .error le) :
    (convert inp w toDT now prior).outcome = reportOf le.toExc ∧
      (convert inp w toDT now prior).outputFile = prior := by
  have hn : normalize toDT df = .error le.toExc := by
    unfold normalize
    rw [if_pos hcol, he]
  rw [convert_chooseOk inp w toDT now prior L hL,
    loadStage_ok inp now toDT L w prior df hdf,
    normalizeStage_err inp now toDT L df w prior le.toExc hn, onExc_eq]
  exact ⟨rfl, rfl⟩

/-- C7 witness: the amended statement at the concrete bad-date world. -/
theorem C7_bad_date_fatal_witness :
    (convert archivo_entrada worldBadDate parseUS "t" none).outcome =
        reportOf (LibErr.valueError "Unknown string format: pronto").toExc ∧
      (convert archivo_entrada worldBadDate parseUS "t" none).outputFile = none :=
  C7_bad_date_fatal archivo_entrada worldBadDate parseUS "t" none Loader.csv
    dfBadDate (LibErr.valueError "Unknown string format: pronto") rfl rfl
    (by decide) rfl

/-- C7 counterexample: the unparseable cell `"pronto"` makes the run end in
the FormatError report — the `except ValueError` clause, since pandas
date-parse errors subclass ValueError — and not in UnexpectedError as
claimed; no output is written. -/
theorem C7_counterexample :
    (convert archivo_entrada worldBadDate parseUS "t" none).outcome =
        Outcome.formatError "Unknown string format: pronto" ∧
      (∀ m, (convert archivo_entrada worldBadDate parseUS "t" none).outcome ≠
        Outcome.unexpectedError m) ∧
      (convert archivo_entrada worldBadDate parseUS "t" none).outputFile = none := by
  refine ⟨rfl, ?_, rfl⟩
  intro m h
  rw [show (convert archivo_entrada worldBadDate parseUS "t" none).outcome =
    Outcome.formatError "Unknown string format: pronto" from rfl] at h
  exact Outcome.noConfusion h

/-- C8: every column other than `Fecha_Compra` passes through unchanged:
in any successful run, each written row binds such a key to exactly the
value the loaded row bound it to, whether or not a `Fecha_Compra` column
exists. -/
theorem C8_column_passthrough (inp : String) (w : World)
    (toDT : Value → Except LibErr YMD) (now : String) (prior : Option OutputDoc)
    (L : Loader) (df : DataFrame) (doc : OutputDoc) (k : String)
    (hk : k ≠ "Fecha_Compra")
    (hL : chooseLoader (splitext_ext inp) = .ok L)
    (hdf : runLoader L w = .ok df)
    (hs : (convert inp w toDT now prior).outcome = Outcome.success doc)
    (i : Nat) (hi : i < df.rows.length) (hi2 : i < doc.datos.length) :
    getVal (doc.datos.get ⟨i, hi2⟩) k = getVal (df.rows.get ⟨i, hi⟩) k := by
  rcases (convert_success_iff inp w toDT now prior doc).mp hs with
    ⟨L2, df2, dfn, hc2, hr2, hn2, hw2, hdoc⟩
  have hL2 : L2 = L := by
    have h := hc2.symm.trans hL
    injection h
  rw [hL2] at hr2
  have hdf2 : df2 = df := by
    have h := hr2.symm.trans hdf
    injection h
  rw [hdf2] at hn2
  by_cases hcol : "Fecha_Compra" ∈ df.columns
  · rcases normalize_ok_col_inv toDT df dfn hcol hn2 with ⟨ds, hm, hdfn⟩
    subst hdfn
    subst hdoc
    have hlds : ds.length = df.rows.length := by
      have h := mapExcept_ok_length toDT (getColumn df "Fecha_Compra") ds hm
      simpa [getColumn] using h
    have hivs : i < (ds.map (fun dd => Value.str (strftimeYMD dd))).length := by
      simp [hlds]
      exact hi
    show getVal
        ((setColumn df "Fecha_Compra"
          (ds.map (fun dd => Value.str (strftimeYMD dd)))).rows.get ⟨i, hi2⟩) k =
      getVal (df.rows.get ⟨i, hi⟩) k
    rw [setColumn_rows_get df "Fecha_Compra" _ i hi2 hi hivs]
    exact getVal_replace_ne (df.rows.get ⟨i, hi⟩) "Fecha_Compra" k _ hk
  · rw [normalize_ok_nocol toDT df hcol] at hn2
    have hdfn : dfn = df := by
      injection hn2 with h
      exact h.symm
    subst hdfn
    subst hdoc
    rfl

/-- C8 witness: the `Producto` column of the first sample row is unchanged
in the written document. -/
theorem C8_column_passthrough_witness :
    getVal (docSample.datos.get ⟨0, by decide⟩) "Producto" =
      getVal (dfSample.rows.get ⟨0, by decide⟩) "Producto" :=
  C8_column_passthrough archivo_entrada worldCsvOk parseUS "t" none Loader.csv
    dfSample docSample "Producto" (by decide) rfl rfl rfl 0 (by decide) (by decide)

/-- C9: the datos array of a successful run does not depend on the clock or
on the previous content of the output path: two successful runs on the same
world produce identical `datos`, the same `fuente_original` and the same
`registros_procesados` — only `fecha_conversion` can differ. -/
theorem C9_structural_idempotence (inp : String) (w : World)
    (toDT : Value → Except LibErr YMD) (t1 t2 : String)
    (p1 p2 : Option OutputDoc) (d1 d2 : OutputDoc)
    (h1 : (convert inp w toDT t1 p1).outcome = Outcome.success d1)
    (h2 : (convert inp w toDT t2 p2).outcome = Outcome.success d2) :
    d1.datos = d2.datos ∧
      d1.metadata.fuente_original = d2.metadata.fuente_original ∧
      d1.metadata.registros_procesados = d2.metadata.registros_procesados := by
  rcases (convert_success_iff inp w toDT t1 p1 d1).mp h1 with
    ⟨L1, df1, dfn1, hc1, hr1, hn1, hw1, hd1⟩
  rcases (convert_success_iff inp w toDT t2 p2 d2).mp h2 with
    ⟨L2, df2, dfn2, hc2, hr2, hn2, hw2, hd2⟩
  have hL : L1 = L2 := by
    have h := hc1.symm.trans hc2
    injection h
  rw [hL] at hr1
  have hdf : df1 = df2 := by
    have h := hr1.symm.trans hr2
    injection h
  rw [hdf] at hn1
  have hdfn : dfn1 = dfn2 := by
    have h := hn1.symm.trans hn2
    injection h
  rw [hdfn] at hd1
  subst hd1
  subst hd2
  exact ⟨rfl, rfl, rfl⟩

/-- C9 witness: two sample runs at clock readings `"t"` and `"t2"` agree on
everything except `fecha_conversion`. -/
theorem C9_structural_idempotence_witness :
    docSample.datos = docSample2.datos ∧
      docSample.metadata.fuente_original = docSample2.metadata.fuente_original ∧
      docSample.metadata.registros_procesados =
        docSample2.metadata.registros_procesados :=
  C9_structural_idempotence archivo_entrada worldCsvOk parseUS "t" "t2"
    none none docSample docSample2 rfl rfl

/-- C10: the extension dispatch runs before any filesystem access: an
unrecognized extension ends the run in FormatError with no loader invoked
and the output path untouched, for every world — in particular when no
input file exists; conversely an InputNotFound outcome implies the
extension was one of the two recognized values. -/
theorem C10_detection_before_fs (inp : String) (w : World)
    (toDT : Value → Except LibErr YMD) (now : String) (prior : Option OutputDoc) :
    (splitext_ext inp ≠ ".xlsx" → splitext_ext inp ≠ ".csv" →
        (convert inp w toDT now prior).outcome =
            Outcome.formatError "Formato de archivo no soportado. Use .xlsx o .csv" ∧
          (convert inp w toDT now prior).loaderUsed = none ∧
          (convert inp w toDT now prior).outputFile = prior) ∧
      ((convert inp w toDT now prior).outcome = Outcome.inputNotFound →
        splitext_ext inp = ".xlsx" ∨ splitext_ext inp = ".csv") := by
  constructor
  · intro h1 h2
    rcases chooseLoader_cases (splitext_ext inp) with
      ⟨h, _⟩ | ⟨_, h, _⟩ | ⟨_, _, hc⟩
    · exact absurd h h1
    · exact absurd h h2
    · rw [convert_chooseErr inp w toDT now prior _ hc, onExc_eq]
      exact ⟨rfl, rfl, rfl⟩
  · intro h
    rcases chooseLoader_cases (splitext_ext inp) with
      ⟨hx, _⟩ | ⟨_, hx, _⟩ | ⟨_, _, hc⟩
    · exact Or.inl hx
    · exact Or.inr hx
    · rw [convert_chooseErr inp w toDT now prior _ hc, onExc_eq] at h
      exact Outcome.noConfusion h

/-- C10 witness: `foo.txt` over a world with no input file still ends in
FormatError — not InputNotFound — with no loader invoked. -/
theorem C10_detection_before_fs_witness :
    (convert "foo.txt" worldMissing parseUS "t" none).outcome =
        Outcome.formatError "Formato de archivo no soportado. Use .xlsx o .csv" ∧
      (convert "foo.txt" worldMissing parseUS "t" none).loaderUsed = none :=
  ⟨((C10_detection_before_fs "foo.txt" worldMissing parseUS "t" none).1
      (by decide) (by decide)).1,
   ((C10_detection_before_fs "foo.txt" worldMissing parseUS "t" none).1
      (by decide) (by decide)).2.1⟩

end Convertidor
